import Mathlib

/-!
Verification of the meta-prompt generation pipeline of the financial-advisor
chat backend (module `app/models/meta_prompt_generator.py`) and of the
in-memory database test double (`app/database/mongodb.py`).

Python dictionaries holding CSV-row fields are embedded as association
lists `List (String × String)` (a field value is the string it renders to
in an f-string).  The insight dictionaries returned by the external
`DataProcessor` are embedded as structures with optional fields, wrapped
in `Option` so that `none` plays the role of the empty dict (falsy in the
`if transaction_insights:` / `if sentiment_insights:` guards).
-/

/-- A Python dict of row fields: association list from key to the string
the value renders to.  `dict.get k` takes the first binding of `k`. -/
abbrev Record := List (String × String)

/-- `dict.get(k)` — `some v` when the key is present, else `none`. -/
def dget? (r : Record) (k : String) : Option String :=
  (r.find? (fun kv => kv.1 == k)).map (fun kv => kv.2)

/-- `dict.get(k, dflt)` — the bound value when the key is present, else the
default (the renderer always passes a default such as "Unknown"). -/
def dget (r : Record) (k : String) (dflt : String) : String :=
  (dget? r k).getD dflt

/-- Python `sep.join(parts)`. -/
def pyJoin (sep : String) : List String → String
  | [] => ""
  | [s] => s
  | s :: t :: rest => s ++ sep ++ pyJoin sep (t :: rest)

/-- The dict produced by `DataProcessor.extract_transaction_insights`
(keys used by the renderer; a key may be absent). -/
structure TransactionInsights where
  monthly_spending : Option String
  top_categories : Option (List String)
  large_transactions : Option String
  recurring_payments : Option String
deriving DecidableEq

/-- The dict produced by `DataProcessor.extract_sentiment_insights`
(keys used by the renderer; a key may be absent). -/
structure SentimentInsights where
  overall_sentiment : Option String
  financial_interests : Option (List String)
  financial_concerns : Option String
deriving DecidableEq

/-- Lines of the `## Demographic Profile` section
(`_format_meta_prompt`, demographic branch). -/
def demo_section (demographics : Record) : List String :=
  ["## Demographic Profile",
   "Age: " ++ dget demographics "age" "Unknown",
   "Gender: " ++ dget demographics "gender" "Unknown",
   "Occupation: " ++ dget demographics "occupation" "Unknown",
   "Annual Income: $" ++ dget demographics "annual_income" "Unknown",
   "Education: " ++ dget demographics "education_level" "Unknown",
   "Location: " ++ dget demographics "city" "Unknown" ++ ", " ++
     dget demographics "state" "Unknown"]

/-- Lines of the `## Financial Profile` section: the header, then the
account lines when the account dict is non-empty, then the credit lines
when the credit dict is non-empty (`_format_meta_prompt`, finance branch). -/
def finance_section (account credit : Record) : List String :=
  ["## Financial Profile"]
  ++ (if account.isEmpty then [] else
      ["Account Type: " ++ dget account "account_type" "Unknown",
       "Account Balance: $" ++ dget account "account_balance" "Unknown",
       "Savings Balance: $" ++ dget account "savings_balance" "Unknown",
       "Account Opened: " ++ dget account "account_opening_date" "Unknown"])
  ++ (if credit.isEmpty then [] else
      ["Credit Score: " ++ dget credit "credit_score" "Unknown",
       "Outstanding Debt: $" ++ dget credit "outstanding_debt" "Unknown",
       "Credit Utilization: " ++ dget credit "credit_utilization" "Unknown" ++ "%",
       "Payment History: " ++ dget credit "payment_history" "Unknown"])

/-- Lines of the `## Investment Profile` section. -/
def invest_section (investments : Record) : List String :=
  ["## Investment Profile",
   "Risk Tolerance: " ++ dget investments "risk_tolerance" "Unknown",
   "Investment Goals: " ++ dget investments "investment_goals" "Unknown",
   "Current Investments: $" ++ dget investments "current_investments" "Unknown",
   "Retirement Savings: $" ++ dget investments "retirement_savings" "Unknown",
   "Investment Preferences: " ++ dget investments "investment_preferences" "Unknown"]

/-- Lines of the `## Spending Patterns` section; the recurring-payments
line is appended only when `transaction_insights.get('recurring_payments')`
is truthy (present and a non-empty string). -/
def trans_section (t : TransactionInsights) : List String :=
  ["## Spending Patterns",
   "Monthly Spending: $" ++ t.monthly_spending.getD "Unknown",
   "Top Spending Categories: " ++ pyJoin ", " (t.top_categories.getD ["Unknown"]),
   "Recent Large Transactions: " ++ t.large_transactions.getD "None"]
  ++ (match t.recurring_payments with
      | some v => if v = "" then [] else ["Recurring Payments: " ++ v]
      | none => [])

/-- Lines of the `## Social Media Insights` section. -/
def sent_section (s : SentimentInsights) : List String :=
  ["## Social Media Insights",
   "Overall Sentiment: " ++ s.overall_sentiment.getD "Unknown",
   "Financial Interests: " ++ pyJoin ", " (s.financial_interests.getD ["Unknown"]),
   "Recent Concerns: " ++ s.financial_concerns.getD "None"]

/-- The `sections` list built by `_format_meta_prompt`: each element is one
already newline-joined section string, appended in the fixed source order,
each under its truthiness guard (`if demographics:`, `if account or
credit:`, `if investments:`, `if transaction_insights:`,
`if sentiment_insights:`). -/
def sectionsOf (demographics account credit investments : Record)
    (ti : Option TransactionInsights) (si : Option SentimentInsights) :
    List String :=
  (if demographics.isEmpty then [] else [pyJoin "\n" (demo_section demographics)])
  ++ (if account.isEmpty && credit.isEmpty then []
      else [pyJoin "\n" (finance_section account credit)])
  ++ (if investments.isEmpty then [] else [pyJoin "\n" (invest_section investments)])
  ++ (match ti with
      | some t => [pyJoin "\n" (trans_section t)]
      | none => [])
  ++ (match si with
      | some s => [pyJoin "\n" (sent_section s)]
      | none => [])

/-- `MetaPromptGenerator._format_meta_prompt`: join the sections with a
blank line; if the joined text is empty, fall back to the renderer-level
generic prompt. -/
def format_meta_prompt (demographics account credit investments : Record)
    (ti : Option TransactionInsights) (si : Option SentimentInsights) : String :=
  let meta_prompt :=
    pyJoin "\n\n" (sectionsOf demographics account credit investments ti si)
  if meta_prompt = "" then
    "New financial advisor user with limited context information available."
  else meta_prompt

/-- The six pandas tables loaded by `_load_datasets`, each a list of rows
in source (CSV) order. -/
structure DataStore where
  demographic_df : List Record
  account_df : List Record
  transaction_df : List Record
  credit_df : List Record
  investment_df : List Record
  sentiment_df : List Record

/-- A row matches a user when its `user_id` field equals the identifier
(`df[df['user_id'] == user_id]`). -/
def rowMatches (r : Record) (user_id : String) : Bool :=
  dget? r "user_id" == some user_id

/-- Lookup of a singular record type in `_get_user_data`: on a non-empty
table, filter by `user_id` and take `iloc[0]` of the matches; an empty
table or no match yields the empty dict. -/
def tableLookupOne (t : List Record) (user_id : String) : Record :=
  if t.isEmpty then []
  else
    match t.filter (fun r => rowMatches r user_id) with
    | [] => []
    | r :: _ => r

/-- Lookup of a plural record type in `_get_user_data`: on a non-empty
table, all matching rows in source order (`to_dict('records')`), else `[]`. -/
def tableLookupMany (t : List Record) (user_id : String) : List Record :=
  if t.isEmpty then []
  else t.filter (fun r => rowMatches r user_id)

/-- The result dict of `_get_user_data`. -/
structure UserData where
  demographics : Record
  account : Record
  credit : Record
  investments : Record
  transactions : List Record
  sentiment : List Record

/-- `MetaPromptGenerator._get_user_data`. -/
def get_user_data (s : DataStore) (user_id : String) : UserData :=
  { demographics := tableLookupOne s.demographic_df user_id
    account := tableLookupOne s.account_df user_id
    credit := tableLookupOne s.credit_df user_id
    investments := tableLookupOne s.investment_df user_id
    transactions := tableLookupMany s.transaction_df user_id
    sentiment := tableLookupMany s.sentiment_df user_id }

/-- The external `DataProcessor.extract_transaction_insights` seen from the
orchestrator: it may raise (`Except.error`) or return a dict (`none` is the
empty dict). -/
abbrev TIExtractor := List Record → Except String (Option TransactionInsights)

/-- The external `DataProcessor.extract_sentiment_insights` seen from the
orchestrator. -/
abbrev SIExtractor := List Record → Except String (Option SentimentInsights)

/-- The body of the `try:` block of `generate_meta_prompt`: look the user
up, run the two extractors (each of which may raise), render.  An
`Except.error` is a Python exception escaping the block. -/
def generate_body (eT : TIExtractor) (eS : SIExtractor)
    (s : DataStore) (user_id : String) : Except String String := do
  let user_data := get_user_data s user_id
  let transaction_insights ← eT user_data.transactions
  let sentiment_insights ← eS user_data.sentiment
  pure (format_meta_prompt user_data.demographics user_data.account
    user_data.credit user_data.investments transaction_insights sentiment_insights)

/-- `MetaPromptGenerator.generate_meta_prompt`: run the body; any exception
is caught and replaced by the orchestrator-level fallback string. -/
def generate_meta_prompt (eT : TIExtractor) (eS : SIExtractor)
    (s : DataStore) (user_id : String) : String :=
  match generate_body eT eS s user_id with
  | .ok r => r
  | .error _ => "Financial advisor user with limited context information available."

/-! ### Observing the rendered text: splitting into lines -/

/-- Split a character list at every occurrence of the separator character
(the semantics of Python `str.split(sep)` for a one-character separator). -/
def splitOnChar (c : Char) : List Char → List (List Char)
  | [] => [[]]
  | a :: as =>
    match splitOnChar c as with
    | [] => [[]]
    | g :: gs => if a = c then [] :: g :: gs else (a :: g) :: gs

/-- The lines of a rendered string. -/
def linesOf (s : String) : List String :=
  (splitOnChar '\n' s.data).map String.mk

/-- A line is a markdown section header when it starts with `##`. -/
def isHashLine (l : List Char) : Bool :=
  List.isPrefixOf ['#', '#'] l

/-- The section-header lines of a rendered string, in order of appearance. -/
def headerLinesOf (s : String) : List String :=
  ((splitOnChar '\n' s.data).filter isHashLine).map String.mk

/-! ### Auxiliary predicates and concrete fixtures -/

/-- Every field value of the dict is free of newline characters. -/
def recordNoNl (r : Record) : Prop := ∀ kv ∈ r, '\n' ∉ (kv.2 : String).data

/-- An optional string value is free of newline characters. -/
def optNoNl : Option String → Prop
  | none => True
  | some v => '\n' ∉ v.data

/-- Every element of an optional string list is free of newline characters. -/
def optListNoNl : Option (List String) → Prop
  | none => True
  | some l => ∀ v ∈ l, '\n' ∉ v.data

/-- All values of a transaction-insight dict are newline-free. -/
def tiNoNl (t : TransactionInsights) : Prop :=
  optNoNl t.monthly_spending ∧ optListNoNl t.top_categories ∧
    optNoNl t.large_transactions ∧ optNoNl t.recurring_payments

/-- All values of a sentiment-insight dict are newline-free. -/
def siNoNl (s : SentimentInsights) : Prop :=
  optNoNl s.overall_sentiment ∧ optListNoNl s.financial_interests ∧
    optNoNl s.financial_concerns

/-- Newline-freedom for the possibly-empty transaction-insight dict. -/
def otiNoNl : Option TransactionInsights → Prop
  | none => True
  | some t => tiNoNl t

/-- Newline-freedom for the possibly-empty sentiment-insight dict. -/
def osiNoNl : Option SentimentInsights → Prop
  | none => True
  | some s => siNoNl s

/-- No row of any of the six tables matches the user identifier. -/
def NoUserRows (s : DataStore) (user_id : String) : Prop :=
  (∀ r ∈ s.demographic_df, rowMatches r user_id = false) ∧
  (∀ r ∈ s.account_df, rowMatches r user_id = false) ∧
  (∀ r ∈ s.transaction_df, rowMatches r user_id = false) ∧
  (∀ r ∈ s.credit_df, rowMatches r user_id = false) ∧
  (∀ r ∈ s.investment_df, rowMatches r user_id = false) ∧
  (∀ r ∈ s.sentiment_df, rowMatches r user_id = false)

/-- A store whose six tables are all empty. -/
def emptyStore : DataStore :=
  { demographic_df := [], account_df := [], transaction_df := []
    credit_df := [], investment_df := [], sentiment_df := [] }

/-- A store holding exactly one demographic row and nothing else. -/
def demoOnlyStore : DataStore :=
  { demographic_df := [[("user_id", "u1"), ("age", "34"), ("occupation", "Engineer"),
      ("annual_income", "95000"), ("city", "Austin"), ("state", "TX")]]
    account_df := [], transaction_df := [], credit_df := []
    investment_df := [], sentiment_df := [] }

/-! ### State-passing reading of `_get_user_data`

The pandas operations used by the lookup (`df.empty`, boolean-mask
filtering, `iloc[0].to_dict()`, `to_dict('records')`) all read the table
and build fresh objects; none writes back to the stored dataframe.  The
state-passing variants below make the table state explicit: each read
returns its result together with the store it leaves behind. -/

/-- A pandas read of one attribute table: returns the rows and leaves the
store as it was. -/
def readTable (proj : DataStore → List Record) (s : DataStore) :
    List Record × DataStore :=
  (proj s, s)

/-- `_get_user_data` with the store threaded through every table read. -/
def get_user_dataS (s : DataStore) (user_id : String) : UserData × DataStore :=
  let (t1, s1) := readTable DataStore.demographic_df s
  let (t2, s2) := readTable DataStore.account_df s1
  let (t3, s3) := readTable DataStore.credit_df s2
  let (t4, s4) := readTable DataStore.investment_df s3
  let (t5, s5) := readTable DataStore.transaction_df s4
  let (t6, s6) := readTable DataStore.sentiment_df s5
  (⟨tableLookupOne t1 user_id, tableLookupOne t2 user_id, tableLookupOne t3 user_id,
    tableLookupOne t4 user_id, tableLookupMany t5 user_id, tableLookupMany t6 user_id⟩, s6)

/-- `generate_meta_prompt` with the store threaded through the call. -/
def generate_meta_promptS (eT : TIExtractor) (eS : SIExtractor)
    (s : DataStore) (user_id : String) : String × DataStore :=
  let (user_data, s1) := get_user_dataS s user_id
  (match (do
      let transaction_insights ← eT user_data.transactions
      let sentiment_insights ← eS user_data.sentiment
      pure (format_meta_prompt user_data.demographics user_data.account
        user_data.credit user_data.investments transaction_insights
        sentiment_insights) : Except String String) with
   | .ok r => r
   | .error _ => "Financial advisor user with limited context information available.",
   s1)

/-! ### The insight extractor (modelled from the spec)

`DataProcessor.extract_transaction_insights` lives in
`app/utils/data_processor.py`, which is not part of the sources; only its
caller is.  Its `monthly_spending` aggregate is therefore modelled from the
spec. -/

/-- A transaction as the spec's `monthly_spending` aggregate sees it:
an amount, a category, and the calendar month of its timestamp. -/
structure Txn where
  amount : ℚ
  category : String
  month : ℕ
deriving DecidableEq

/-- The distinct calendar months the transactions span, in order of last
occurrence. -/
def monthsOf (ts : List Txn) : List ℕ :=
  (ts.map Txn.month).dedup

/-- Total amount spent in one calendar month. -/
def monthTotal (ts : List Txn) (m : ℕ) : ℚ :=
  ((ts.filter (fun t => t.month == m)).map Txn.amount).sum

/-- Modelled from the spec: `DataProcessor.extract_transaction_insights`
is not under the sources; per the spec, `monthly_spending` groups the
amounts by calendar month of timestamp and averages the per-month totals,
and an empty sequence yields the neutral value. -/
def monthly_spending (ts : List Txn) : ℚ :=
  if ts = [] then 0
  else ((monthsOf ts).map (monthTotal ts)).sum / ((monthsOf ts).length : ℚ)

/-- The spec's example transaction list: 100 on Food in month 1, 300 on
Food in month 2, 50 on Travel in month 1. -/
def c9txns : List Txn :=
  [⟨100, "Food", 1⟩, ⟨300, "Food", 2⟩, ⟨50, "Travel", 1⟩]

/-! ### `MockCollection.update_one` (`app/database/mongodb.py`)

Documents are embedded as association lists.  The `update` argument is a
dict that either carries a `$set` key whose value is a field dict, or is
itself the field dict; the two shapes are the two branches of the source's
`if '$set' in update:` test.  The `MockUpdateResult` class statement
executes only inside the matched branch of `update_one`; in the unmatched
branches the name is unbound, so the `return MockUpdateResult(...)` lines
there raise `UnboundLocalError`.  A raise is embedded as `Except.error`
carrying the exception name and the collection contents at raise time. -/

/-- The result object built in the matched branch of `update_one`. -/
structure MockUpdateResult where
  matched_count : ℕ
  modified_count : ℕ
  upserted_id : Option String
deriving DecidableEq

/-- A stored document. -/
abbrev Doc := List (String × String)

/-- The match test of `MockCollection.find_one`: every query key is
present in the item with an equal value. -/
def docMatches (item : Doc) (query : Doc) : Bool :=
  query.all (fun kv => match dget? item kv.1 with
    | some v => v == kv.2
    | none => false)

/-- `MockCollection.find_one`: a falsy (empty) query returns the first
document if any; otherwise the first document matching every query pair. -/
def find_one (data : List Doc) (query : Doc) : Option Doc :=
  if query.isEmpty then data.head?
  else data.find? (fun item => docMatches item query)

/-- Python dict assignment `item[key] = value`: replace the binding if the
key is present, else append it. -/
def dset (d : Doc) (k v : String) : Doc :=
  match d with
  | [] => [(k, v)]
  | kv :: rest => if kv.1 == k then (k, v) :: rest else kv :: dset rest k v

/-- Assign each field in turn (the `for key, value ...: item[key] = value`
loop, and also `dict.update`). -/
def applyFields (item : Doc) (fields : Doc) : Doc :=
  fields.foldl (fun it kv => dset it kv.1 kv.2) item

/-- The `update` argument of `update_one`: a `{'$set': fields}` dict or a
plain field dict. -/
inductive UpdateArg where
  | withSet (fields : Doc)
  | plain (fields : Doc)

/-- The fields the update applies (`update['$set']` in the first branch of
the `if '$set' in update:` test, `update` itself in the second). -/
def UpdateArg.fields : UpdateArg → Doc
  | .withSet f => f
  | .plain f => f

/-- Replace the first document satisfying the test (the in-place mutation
of the reference returned by `find_one`). -/
def replaceFirst (data : List Doc) (p : Doc → Bool) (f : Doc → Doc) : List Doc :=
  match data with
  | [] => []
  | d :: ds => if p d then f d :: ds else d :: replaceFirst ds p f

/-- Mutate, inside the collection, the document `find_one` located. -/
def mutateFound (data : List Doc) (query fields : Doc) : List Doc :=
  if query.isEmpty then
    match data with
    | [] => []
    | d :: ds => applyFields d fields :: ds
  else replaceFirst data (fun item => docMatches item query) (fun d => applyFields d fields)

/-- `MockCollection.update_one`.  The source tests the found item with
`if item:` — a truthiness test, so both `None` (no document found) and an
empty found dict take the `elif upsert:` / `else:` path.  Truthy item:
fields are written into the found document and a `MockUpdateResult(1, 1)`
is returned.  Falsy item with `upsert=True`: `{**query}` merged with the
fields is appended by `insert_one`, then the `MockUpdateResult` reference
raises.  Falsy item without upsert: the reference raises with the
collection unchanged. -/
def update_one (data : List Doc) (query : Doc) (update : UpdateArg)
    (upsert : Bool) : Except (String × List Doc) (MockUpdateResult × List Doc) :=
  match find_one data query with
  | some item =>
    if item.isEmpty then
      if upsert then
        .error ("UnboundLocalError", data ++ [applyFields query update.fields])
      else
        .error ("UnboundLocalError", data)
    else
      .ok (⟨1, 1, none⟩, mutateFound data query update.fields)
  | none =>
    if upsert then
      .error ("UnboundLocalError", data ++ [applyFields query update.fields])
    else
      .error ("UnboundLocalError", data)

theorem splitOnChar_ne_nil (c : Char) (l : List Char) : splitOnChar c l ≠ [] := by
  cases l with
  | nil => simp [splitOnChar]
  | cons a as =>
    simp only [splitOnChar]
    cases splitOnChar c as with
    | nil => simp
    | cons g gs =>
      by_cases h : a = c <;> simp [h]

theorem splitOnChar_cons_self (c : Char) (ys : List Char) :
    splitOnChar c (c :: ys) = [] :: splitOnChar c ys := by
  simp only [splitOnChar]
  cases h : splitOnChar c ys with
  | nil => exact absurd h (splitOnChar_ne_nil c ys)
  | cons g gs => simp

theorem splitOnChar_append_sep (c : Char) (xs ys : List Char) :
    splitOnChar c (xs ++ c :: ys) = splitOnChar c xs ++ splitOnChar c ys := by
  induction xs with
  | nil =>
    simpa [splitOnChar] using splitOnChar_cons_self c ys
  | cons a as ih =>
    by_cases hac : a = c
    · subst hac
      rw [List.cons_append, splitOnChar_cons_self, splitOnChar_cons_self, ih]
      simp
    · rw [List.cons_append]
      simp only [splitOnChar, ih]
      cases h : splitOnChar c as with
      | nil => exact absurd h (splitOnChar_ne_nil c as)
      | cons g gs => simp [hac]

theorem splitOnChar_of_not_mem (c : Char) (xs : List Char) (h : c ∉ xs) :
    splitOnChar c xs = [xs] := by
  induction xs with
  | nil => simp [splitOnChar]
  | cons a as ih =>
    simp only [List.mem_cons, not_or] at h
    simp only [splitOnChar, ih h.2]
    have hac : ¬ a = c := fun hc => h.1 hc.symm
    simp [hac]

/-! ### Decomposing joined text into lines -/

theorem split_join1_cons (s t : String) (rest : List String) :
    splitOnChar '\n' (pyJoin "\n" (s :: t :: rest)).data
      = splitOnChar '\n' s.data ++ splitOnChar '\n' (pyJoin "\n" (t :: rest)).data := by
  have h : pyJoin "\n" (s :: t :: rest) = s ++ "\n" ++ pyJoin "\n" (t :: rest) := rfl
  rw [h, String.data_append, String.data_append, List.append_assoc]
  exact splitOnChar_append_sep '\n' s.data _

theorem split_join2_cons (s t : String) (rest : List String) :
    splitOnChar '\n' (pyJoin "\n\n" (s :: t :: rest)).data
      = splitOnChar '\n' s.data ++ [] :: splitOnChar '\n' (pyJoin "\n\n" (t :: rest)).data := by
  have h : pyJoin "\n\n" (s :: t :: rest) = s ++ "\n\n" ++ pyJoin "\n\n" (t :: rest) := rfl
  rw [h, String.data_append, String.data_append, List.append_assoc]
  show splitOnChar '\n' (s.data ++ '\n' :: '\n' :: (pyJoin "\n\n" (t :: rest)).data) = _
  rw [splitOnChar_append_sep, splitOnChar_cons_self]

theorem flatten_map_singleton {α β : Type} (f : α → β) (l : List α) :
    (l.map (fun a => [f a])).flatten = l.map f := by
  induction l <;> simp_all

theorem split_join1 (lines : List String) (h : lines ≠ []) :
    splitOnChar '\n' (pyJoin "\n" lines).data
      = (lines.map (fun l => splitOnChar '\n' l.data)).flatten := by
  induction lines with
  | nil => exact absurd rfl h
  | cons s rest ih =>
    cases rest with
    | nil => simp [pyJoin]
    | cons t r =>
      rw [split_join1_cons, ih (by simp)]
      simp

theorem split_join1_noNl (lines : List String) (h : lines ≠ [])
    (hnl : ∀ l ∈ lines, '\n' ∉ l.data) :
    splitOnChar '\n' (pyJoin "\n" lines).data = lines.map String.data := by
  rw [split_join1 lines h]
  have heq : lines.map (fun l => splitOnChar '\n' l.data)
      = lines.map (fun l => [l.data]) :=
    List.map_congr_left (fun l hl => splitOnChar_of_not_mem _ _ (hnl l hl))
  rw [heq, flatten_map_singleton]

theorem filter_hash_join2 (secs : List String) (h : secs ≠ []) :
    (splitOnChar '\n' (pyJoin "\n\n" secs).data).filter isHashLine
      = (secs.map (fun s => (splitOnChar '\n' s.data).filter isHashLine)).flatten := by
  induction secs with
  | nil => exact absurd rfl h
  | cons s rest ih =>
    cases rest with
    | nil => simp [pyJoin]
    | cons t r =>
      rw [split_join2_cons, List.filter_append,
        List.filter_cons_of_neg (by decide), ih (by simp)]
      simp

theorem mem_split_join2 (secs : List String) (s : String) (hs : s ∈ secs)
    (x : List Char) (hx : x ∈ splitOnChar '\n' s.data) :
    x ∈ splitOnChar '\n' (pyJoin "\n\n" secs).data := by
  induction secs with
  | nil => simp at hs
  | cons a rest ih =>
    cases rest with
    | nil =>
      have : s = a := by simpa using hs
      subst this
      simpa [pyJoin] using hx
    | cons t r =>
      rw [split_join2_cons]
      rcases List.mem_cons.mp hs with h1 | h2
      · subst h1
        exact List.mem_append_left _ hx
      · exact List.mem_append_right _ (List.mem_cons_of_mem _ (ih h2))

theorem mem_split_join1 (lines : List String) (L : String) (hL : L ∈ lines)
    (hnl : '\n' ∉ L.data) :
    L.data ∈ splitOnChar '\n' (pyJoin "\n" lines).data := by
  have hne : lines ≠ [] := by rintro rfl; simp at hL
  rw [split_join1 lines hne]
  refine List.mem_flatten.mpr ⟨splitOnChar '\n' L.data, List.mem_map_of_mem _ hL, ?_⟩
  rw [splitOnChar_of_not_mem _ _ hnl]
  simp

theorem pyJoin1_head_ne (hdr : String) (rest : List String) (hh : hdr.data ≠ []) :
    (pyJoin "\n" (hdr :: rest)).data ≠ [] := by
  cases rest with
  | nil => simpa [pyJoin]
  | cons t r =>
    have h : pyJoin "\n" (hdr :: t :: r) = hdr ++ "\n" ++ pyJoin "\n" (t :: r) := rfl
    rw [h, String.data_append, String.data_append]
    intro heq
    rcases List.append_eq_nil.mp heq with ⟨h1, _⟩
    rcases List.append_eq_nil.mp h1 with ⟨h3, _⟩
    exact hh h3

theorem pyJoin2_data_ne_nil (secs : List String) (h : secs ≠ [])
    (hd : ∀ s ∈ secs, s.data ≠ []) : (pyJoin "\n\n" secs).data ≠ [] := by
  cases secs with
  | nil => exact absurd rfl h
  | cons s rest =>
    cases rest with
    | nil => simpa [pyJoin] using hd s (by simp)
    | cons t r =>
      have heq : pyJoin "\n\n" (s :: t :: r) = s ++ "\n\n" ++ pyJoin "\n\n" (t :: r) := rfl
      rw [heq, String.data_append, String.data_append]
      intro hnil
      rcases List.append_eq_nil.mp hnil with ⟨h1, _⟩
      rcases List.append_eq_nil.mp h1 with ⟨h3, _⟩
      exact hd s (by simp) h3

theorem pyJoin2_ne_empty (secs : List String) (h : secs ≠ [])
    (hd : ∀ s ∈ secs, s.data ≠ []) : pyJoin "\n\n" secs ≠ "" := by
  intro heq
  exact pyJoin2_data_ne_nil secs h hd (by rw [heq])

theorem sectionsOf_data_ne_nil (d a c i : Record) (ti : Option TransactionInsights)
    (si : Option SentimentInsights) :
    ∀ s ∈ sectionsOf d a c i ti si, s.data ≠ [] := by
  intro s hs
  simp only [sectionsOf, List.mem_append] at hs
  rcases hs with ((((h | h) | h) | h) | h)
  · split at h
    · simp at h
    · have : s = pyJoin "\n" (demo_section d) := by simpa using h
      subst this
      exact pyJoin1_head_ne _ _ (by decide)
  · split at h
    · simp at h
    · have : s = pyJoin "\n" (finance_section a c) := by simpa using h
      subst this
      exact pyJoin1_head_ne _ _ (by decide)
  · split at h
    · simp at h
    · have : s = pyJoin "\n" (invest_section i) := by simpa using h
      subst this
      exact pyJoin1_head_ne _ _ (by decide)
  · cases ti with
    | none => simp at h
    | some t =>
      have : s = pyJoin "\n" (trans_section t) := by simpa using h
      subst this
      exact pyJoin1_head_ne _ _ (by decide)
  · cases si with
    | none => simp at h
    | some w =>
      have : s = pyJoin "\n" (sent_section w) := by simpa using h
      subst this
      exact pyJoin1_head_ne _ _ (by decide)

/-! ### Lookup lemmas -/

theorem tableLookupOne_eq_nil (t : List Record) (user_id : String)
    (h : ∀ r ∈ t, rowMatches r user_id = false) :
    tableLookupOne t user_id = [] := by
  unfold tableLookupOne
  split
  · rfl
  · have hf : t.filter (fun r => rowMatches r user_id) = [] := by
      rw [List.filter_eq_nil_iff]
      intro r hr
      simp [h r hr]
    rw [hf]

theorem tableLookupMany_eq_nil (t : List Record) (user_id : String)
    (h : ∀ r ∈ t, rowMatches r user_id = false) :
    tableLookupMany t user_id = [] := by
  unfold tableLookupMany
  split
  · rfl
  · rw [List.filter_eq_nil_iff]
    intro r hr
    simp [h r hr]

theorem tableLookupOne_first (user_id : String) (pre post : List Record) (r : Record)
    (hpre : ∀ x ∈ pre, rowMatches x user_id = false)
    (hr : rowMatches r user_id = true) :
    tableLookupOne (pre ++ r :: post) user_id = r := by
  unfold tableLookupOne
  have hne : (pre ++ r :: post).isEmpty = false := by
    cases pre <;> simp
  rw [hne]
  simp only [Bool.false_eq_true, if_false]
  have hfp : pre.filter (fun x => rowMatches x user_id) = [] := by
    rw [List.filter_eq_nil_iff]
    intro x hx
    simp [hpre x hx]
  rw [List.filter_append, hfp, List.nil_append]
  simp only [List.filter_cons, hr, if_true]

/-- C6: for every singular record type, when the source table holds
several rows for the same user, the lookup feeding meta-prompt generation
returns the first matching row in source order. -/
theorem duplicate_rows_first_match (user_id : String) (pre post : List Record)
    (r : Record) (hpre : ∀ x ∈ pre, rowMatches x user_id = false)
    (hr : rowMatches r user_id = true) (s : DataStore) :
    (s.demographic_df = pre ++ r :: post →
      (get_user_data s user_id).demographics = r) ∧
    (s.account_df = pre ++ r :: post →
      (get_user_data s user_id).account = r) ∧
    (s.credit_df = pre ++ r :: post →
      (get_user_data s user_id).credit = r) ∧
    (s.investment_df = pre ++ r :: post →
      (get_user_data s user_id).investments = r) := by
  refine ⟨fun h => ?_, fun h => ?_, fun h => ?_, fun h => ?_⟩ <;>
    simp only [get_user_data] <;>
    rw [h] <;>
    exact tableLookupOne_first user_id pre post r hpre hr

theorem duplicate_rows_first_match_witness :
    (get_user_data
      { demographic_df := [[("user_id", "u2"), ("age", "50")],
          [("user_id", "u1"), ("age", "30")], [("user_id", "u1"), ("age", "99")]]
        account_df := [], transaction_df := [], credit_df := []
        investment_df := [], sentiment_df := [] } "u1").demographics
      = [("user_id", "u1"), ("age", "30")] :=
  (duplicate_rows_first_match "u1" [[("user_id", "u2"), ("age", "50")]]
    [[("user_id", "u1"), ("age", "99")]] [("user_id", "u1"), ("age", "30")]
    (by decide) (by decide) _).1 rfl

/-! ### C2: the orchestrator-level exception catch -/

/-- C2: whenever the body of the `try:` block of `generate_meta_prompt`
raises (the data lookup, either insight-extraction call, or the rendering
step ends in an exception), the exception is caught and the call returns
the literal orchestrator fallback string instead of propagating. -/
theorem meta_prompt_exception_fallback (eT : TIExtractor) (eS : SIExtractor)
    (s : DataStore) (user_id : String) (e : String)
    (h : generate_body eT eS s user_id = .error e) :
    generate_meta_prompt eT eS s user_id
      = "Financial advisor user with limited context information available." := by
  unfold generate_meta_prompt
  rw [h]

theorem meta_prompt_exception_fallback_witness :
    generate_meta_prompt (fun _ => .error "boom") (fun _ => .ok none)
        emptyStore "u1"
      = "Financial advisor user with limited context information available." :=
  meta_prompt_exception_fallback (fun _ => .error "boom") (fun _ => .ok none)
    emptyStore "u1" "boom" rfl

/-! ### C7: the renderer is deterministic -/

/-- C7: rendering depends only on its six inputs — two calls with equal
demographic, account, credit, investment records and equal insight
structures produce the same output string (no time, randomness, or hidden
state enters `_format_meta_prompt`). -/
theorem rendering_deterministic (d a c i : Record)
    (ti : Option TransactionInsights) (si : Option SentimentInsights)
    (d' a' c' i' : Record) (ti' : Option TransactionInsights)
    (si' : Option SentimentInsights)
    (h1 : d = d') (h2 : a = a') (h3 : c = c') (h4 : i = i')
    (h5 : ti = ti') (h6 : si = si') :
    format_meta_prompt d a c i ti si = format_meta_prompt d' a' c' i' ti' si' := by
  subst h1; subst h2; subst h3; subst h4; subst h5; subst h6
  rfl

theorem rendering_deterministic_witness :
    format_meta_prompt [("user_id", "u1")] [] [] [] none none
      = format_meta_prompt [("user_id", "u1")] [] [] [] none none :=
  rendering_deterministic [("user_id", "u1")] [] [] [] none none
    [("user_id", "u1")] [] [] [] none none rfl rfl rfl rfl rfl rfl

/-! ### C8: generation never mutates the loaded tables -/

/-- C8: threading the store through every table read of
`generate_meta_prompt`, the store that comes out is the store that went
in — the lookups filter and copy rows but never write back — and the
produced text is that of the plain call. -/
theorem generate_read_only (eT : TIExtractor) (eS : SIExtractor)
    (s : DataStore) (user_id : String) :
    (generate_meta_promptS eT eS s user_id).2 = s ∧
    (generate_meta_promptS eT eS s user_id).1
      = generate_meta_prompt eT eS s user_id := by
  constructor
  · rfl
  · rfl

/-! ### C10: `MockCollection.update_one` on unmatched queries -/

/-- C10: `update_one` produces an update-result value only when the query
matched an existing document that is truthy (`if item:`), and it does so
whenever the found document is non-empty.  When the item is falsy — no
document found, or the found document is the empty dict — the unbound
`MockUpdateResult` reference raises: with `upsert=True` the merged
document has already been appended by `insert_one` first, so the state
changes although no result is returned; without upsert the collection is
unchanged. -/
theorem update_one_unbound_result (data : List Doc) (query : Doc)
    (u : UpdateArg) (upsert : Bool) :
    (∀ res st, update_one data query u upsert = .ok (res, st) →
      ∃ item, find_one data query = some item ∧ item ≠ []) ∧
    (∀ item, find_one data query = some item → item ≠ [] →
      update_one data query u upsert
        = .ok (⟨1, 1, none⟩, mutateFound data query u.fields)) ∧
    (find_one data query = none → upsert = true →
      update_one data query u upsert
        = .error ("UnboundLocalError", data ++ [applyFields query u.fields])) ∧
    (find_one data query = none → upsert = false →
      update_one data query u upsert = .error ("UnboundLocalError", data)) ∧
    (find_one data query = some [] → upsert = true →
      update_one data query u upsert
        = .error ("UnboundLocalError", data ++ [applyFields query u.fields])) ∧
    (find_one data query = some [] → upsert = false →
      update_one data query u upsert = .error ("UnboundLocalError", data)) := by
  refine ⟨?_, ?_, ?_, ?_, ?_, ?_⟩
  · intro res st h
    cases hf : find_one data query with
    | none =>
      simp only [update_one, hf] at h
      split at h <;> exact Except.noConfusion h
    | some item =>
      simp only [update_one, hf] at h
      by_cases hie : item.isEmpty = true
      · rw [if_pos hie] at h
        split at h <;> exact Except.noConfusion h
      · refine ⟨item, rfl, ?_⟩
        intro h0
        subst h0
        simp at hie
  · intro item hf hne
    have hie : item.isEmpty = false := by
      cases item
      · exact absurd rfl hne
      · rfl
    simp [update_one, hf, hie]
  · intro hf hu
    simp [update_one, hf, hu]
  · intro hf hu
    simp [update_one, hf, hu]
  · intro hf hu
    simp [update_one, hf, hu]
  · intro hf hu
    simp [update_one, hf, hu]

theorem update_one_unbound_result_witness :
    update_one [] [("user_id", "u1")] (UpdateArg.withSet [("name", "x")]) true
      = .error ("UnboundLocalError", [[("user_id", "u1"), ("name", "x")]]) := by
  have h := (update_one_unbound_result [] [("user_id", "u1")]
    (UpdateArg.withSet [("name", "x")]) true).2.2.1 rfl rfl
  simpa using h

/-! ### C1: users absent from every dataset -/

/-- C1: for a user identifier matching no row of any of the six datasets,
`generate_meta_prompt` returns one of the two literal fallback strings and
raises nothing; with extractors that (per the spec) return the empty
insight structure on empty input, the renderer-level fallback is the one
returned. -/
theorem meta_prompt_no_data_fallback (eT : TIExtractor) (eS : SIExtractor)
    (s : DataStore) (user_id : String)
    (hT : eT [] = .ok none) (hS : eS [] = .ok none)
    (h : NoUserRows s user_id) :
    generate_meta_prompt eT eS s user_id
      = "New financial advisor user with limited context information available." ∨
    generate_meta_prompt eT eS s user_id
      = "Financial advisor user with limited context information available." := by
  left
  obtain ⟨h1, h2, h3, h4, h5, h6⟩ := h
  have hud : get_user_data s user_id = ⟨[], [], [], [], [], []⟩ := by
    simp only [get_user_data]
    rw [tableLookupOne_eq_nil _ _ h1, tableLookupOne_eq_nil _ _ h2,
      tableLookupOne_eq_nil _ _ h4, tableLookupOne_eq_nil _ _ h5,
      tableLookupMany_eq_nil _ _ h3, tableLookupMany_eq_nil _ _ h6]
  have hbody : generate_body eT eS s user_id
      = .ok (format_meta_prompt [] [] [] [] none none) := by
    unfold generate_body
    rw [hud]
    show (eT []).bind (fun transaction_insights =>
      (eS []).bind (fun sentiment_insights =>
        pure (format_meta_prompt [] [] [] [] transaction_insights
          sentiment_insights))) = _
    rw [hT, hS]
    rfl
  unfold generate_meta_prompt
  rw [hbody]
  rfl

theorem meta_prompt_no_data_fallback_witness :
    generate_meta_prompt (fun _ => .ok none) (fun _ => .ok none) emptyStore "u1"
      = "New financial advisor user with limited context information available." ∨
    generate_meta_prompt (fun _ => .ok none) (fun _ => .ok none) emptyStore "u1"
      = "Financial advisor user with limited context information available." :=
  meta_prompt_no_data_fallback (fun _ => .ok none) (fun _ => .ok none)
    emptyStore "u1" rfl rfl
    ⟨by simp [emptyStore], by simp [emptyStore], by simp [emptyStore],
     by simp [emptyStore], by simp [emptyStore], by simp [emptyStore]⟩

/-! ### C5: a user with only a demographic row -/

/-- C5: for the user whose only data is the demographic row
(age 34, occupation Engineer, annual income 95000, Austin, TX), the
generated text has a `## Demographic Profile` section with the four
expected field lines, and no other `##` section header. -/
theorem demographic_only_rendering (eT : TIExtractor) (eS : SIExtractor)
    (hT : eT [] = .ok none) (hS : eS [] = .ok none) :
    "## Demographic Profile" ∈ linesOf (generate_meta_prompt eT eS demoOnlyStore "u1") ∧
    "Age: 34" ∈ linesOf (generate_meta_prompt eT eS demoOnlyStore "u1") ∧
    "Occupation: Engineer" ∈ linesOf (generate_meta_prompt eT eS demoOnlyStore "u1") ∧
    "Annual Income: $95000" ∈ linesOf (generate_meta_prompt eT eS demoOnlyStore "u1") ∧
    "Location: Austin, TX" ∈ linesOf (generate_meta_prompt eT eS demoOnlyStore "u1") ∧
    headerLinesOf (generate_meta_prompt eT eS demoOnlyStore "u1")
      = ["## Demographic Profile"] := by
  have hud : get_user_data demoOnlyStore "u1"
      = ⟨[("user_id", "u1"), ("age", "34"), ("occupation", "Engineer"),
          ("annual_income", "95000"), ("city", "Austin"), ("state", "TX")],
         [], [], [], [], []⟩ := by rfl
  have hbody : generate_body eT eS demoOnlyStore "u1"
      = .ok (format_meta_prompt
          [("user_id", "u1"), ("age", "34"), ("occupation", "Engineer"),
           ("annual_income", "95000"), ("city", "Austin"), ("state", "TX")]
          [] [] [] none none) := by
    unfold generate_body
    rw [hud]
    show (eT []).bind (fun transaction_insights =>
      (eS []).bind (fun sentiment_insights =>
        pure (format_meta_prompt
          [("user_id", "u1"), ("age", "34"), ("occupation", "Engineer"),
           ("annual_income", "95000"), ("city", "Austin"), ("state", "TX")]
          [] [] [] transaction_insights sentiment_insights))) = _
    rw [hT, hS]
    rfl
  have hgen : generate_meta_prompt eT eS demoOnlyStore "u1"
      = format_meta_prompt
          [("user_id", "u1"), ("age", "34"), ("occupation", "Engineer"),
           ("annual_income", "95000"), ("city", "Austin"), ("state", "TX")]
          [] [] [] none none := by
    unfold generate_meta_prompt
    rw [hbody]
  rw [hgen]
  refine ⟨by decide, by decide, by decide, by decide, by decide, by decide⟩

theorem demographic_only_rendering_witness :
    "## Demographic Profile" ∈ linesOf (generate_meta_prompt
        (fun _ => .ok none) (fun _ => .ok none) demoOnlyStore "u1") ∧
    "Age: 34" ∈ linesOf (generate_meta_prompt
        (fun _ => .ok none) (fun _ => .ok none) demoOnlyStore "u1") ∧
    "Occupation: Engineer" ∈ linesOf (generate_meta_prompt
        (fun _ => .ok none) (fun _ => .ok none) demoOnlyStore "u1") ∧
    "Annual Income: $95000" ∈ linesOf (generate_meta_prompt
        (fun _ => .ok none) (fun _ => .ok none) demoOnlyStore "u1") ∧
    "Location: Austin, TX" ∈ linesOf (generate_meta_prompt
        (fun _ => .ok none) (fun _ => .ok none) demoOnlyStore "u1") ∧
    headerLinesOf (generate_meta_prompt
        (fun _ => .ok none) (fun _ => .ok none) demoOnlyStore "u1")
      = ["## Demographic Profile"] :=
  demographic_only_rendering (fun _ => .ok none) (fun _ => .ok none) rfl rfl

/-! ### C4: field lines of rendered sections -/

theorem mem_lines_format (d a c i : Record) (ti : Option TransactionInsights)
    (si : Option SentimentInsights) (lines : List String) (L : String)
    (hsec : pyJoin "\n" lines ∈ sectionsOf d a c i ti si)
    (hL : L ∈ lines) (hnl : '\n' ∉ L.data) :
    L ∈ linesOf (format_meta_prompt d a c i ti si) := by
  have h1 : L.data ∈ splitOnChar '\n' (pyJoin "\n" lines).data :=
    mem_split_join1 _ _ hL hnl
  have h2 : L.data
      ∈ splitOnChar '\n' (pyJoin "\n\n" (sectionsOf d a c i ti si)).data :=
    mem_split_join2 _ _ hsec _ h1
  have hneS : sectionsOf d a c i ti si ≠ [] := by
    intro h0
    rw [h0] at hsec
    simp at hsec
  have hne : pyJoin "\n\n" (sectionsOf d a c i ti si) ≠ "" :=
    pyJoin2_ne_empty _ hneS (sectionsOf_data_ne_nil d a c i ti si)
  show L ∈ linesOf
    (if pyJoin "\n\n" (sectionsOf d a c i ti si) = ""
     then "New financial advisor user with limited context information available."
     else pyJoin "\n\n" (sectionsOf d a c i ti si))
  rw [if_neg hne]
  exact List.mem_map_of_mem String.mk h2

/-- C4 counterexample: take a non-empty transaction-insight dict with all
four renderer keys absent.  The rendered `## Spending Patterns` section
has exactly four lines: no `Recurring Payments` line appears at all  the
field line is omitted mid-section  and the absent `large_transactions`
field renders `None`, not `Unknown`. -/
theorem field_default_counterexample :
    linesOf (format_meta_prompt [] [] [] []
        (some ⟨none, none, none, none⟩) none)
      = ["## Spending Patterns", "Monthly Spending: $Unknown",
         "Top Spending Categories: Unknown",
         "Recent Large Transactions: None"] ∧
    "Recurring Payments: Unknown" ∉ linesOf (format_meta_prompt [] [] [] []
        (some ⟨none, none, none, none⟩) none) ∧
    "Recent Large Transactions: Unknown" ∉ linesOf
      (format_meta_prompt [] [] [] []
        (some ⟨none, none, none, none⟩) none) := by
  refine ⟨by decide, by decide, by decide⟩

/-- C4 (amended): no line of a rendered section is dropped: whenever a
section guard fires, every newline-free line of that section's fixed line
list appears in the final output.  For the four record-based sections each
field renders as `Label: value` with `Unknown` substituted for an absent
field  in particular a present credit record lacking `credit_score`
yields the line `Credit Score: Unknown`  while in the insight sections
`large_transactions` and `financial_concerns` default to `None` and the
`Recurring Payments` line exists only when that field is present and
non-empty (as the section line-list definitions record). -/
theorem section_field_lines (d a c i : Record)
    (ti : Option TransactionInsights) (si : Option SentimentInsights) :
    (d.isEmpty = false → ∀ l ∈ demo_section d, '\n' ∉ l.data →
      l ∈ linesOf (format_meta_prompt d a c i ti si)) ∧
    ((a.isEmpty && c.isEmpty) = false → ∀ l ∈ finance_section a c,
      '\n' ∉ l.data → l ∈ linesOf (format_meta_prompt d a c i ti si)) ∧
    (i.isEmpty = false → ∀ l ∈ invest_section i, '\n' ∉ l.data →
      l ∈ linesOf (format_meta_prompt d a c i ti si)) ∧
    (∀ t, ti = some t → ∀ l ∈ trans_section t, '\n' ∉ l.data →
      l ∈ linesOf (format_meta_prompt d a c i ti si)) ∧
    (∀ w, si = some w → ∀ l ∈ sent_section w, '\n' ∉ l.data →
      l ∈ linesOf (format_meta_prompt d a c i ti si)) ∧
    (c ≠ [] → dget? c "credit_score" = none →
      "Credit Score: Unknown" ∈ linesOf (format_meta_prompt d a c i ti si)) := by
  refine ⟨?_, ?_, ?_, ?_, ?_, ?_⟩
  · intro hg l hl hnl
    exact mem_lines_format d a c i ti si (demo_section d) l
      (by simp [sectionsOf, hg]) hl hnl
  · intro hg l hl hnl
    exact mem_lines_format d a c i ti si (finance_section a c) l
      (by simp [sectionsOf, hg]) hl hnl
  · intro hg l hl hnl
    exact mem_lines_format d a c i ti si (invest_section i) l
      (by simp [sectionsOf, hg]) hl hnl
  · intro t hg l hl hnl
    exact mem_lines_format d a c i ti si (trans_section t) l
      (by simp [sectionsOf, hg]) hl hnl
  · intro w hg l hl hnl
    exact mem_lines_format d a c i ti si (sent_section w) l
      (by simp [sectionsOf, hg]) hl hnl
  · intro hc hmiss
    have hcE : c.isEmpty = false := by
      cases c
      · exact absurd rfl hc
      · rfl
    have hline : ("Credit Score: " ++ dget c "credit_score" "Unknown")
        = "Credit Score: Unknown" := by
      simp [dget, hmiss]
    have hmem : "Credit Score: Unknown" ∈ finance_section a c := by
      rw [← hline]
      simp [finance_section, hcE]
    have hg : (a.isEmpty && c.isEmpty) = false := by
      rw [hcE]
      simp
    exact mem_lines_format d a c i ti si (finance_section a c) _
      (by simp [sectionsOf, hg]) hmem (by decide)

theorem section_field_lines_witness :
    "Credit Score: Unknown" ∈ linesOf
      (format_meta_prompt [] [] [("user_id", "u1")] [] none none) :=
  (section_field_lines [] [] [("user_id", "u1")] [] none none).2.2.2.2.2
    (by simp) rfl

/-! ### C9: the monthly spending aggregate -/

theorem dedup_const {l : List ℕ} {m0 : ℕ} (hne : l ≠ []) (h : ∀ x ∈ l, x = m0) :
    l.dedup = [m0] := by
  induction l with
  | nil => exact absurd rfl hne
  | cons x rest ih =>
    cases rest with
    | nil =>
      rw [List.dedup_cons_of_not_mem (by simp), List.dedup_nil, h x (by simp)]
    | cons y r =>
      have hr : (y :: r).dedup = [m0] := ih (by simp) (fun z hz => h z (by simp [hz]))
      have hx : x = m0 := h x (by simp)
      have hy : y = m0 := h y (by simp)
      have hmem : x ∈ y :: r := by
        rw [hx, hy]
        exact List.mem_cons_self _ _
      rw [List.dedup_cons_of_mem hmem, hr]

/-- C9 counterexample: on the spec's own example transactions
(100 Food in month 1, 300 Food in month 2, 50 Travel in month 1) the
per-calendar-month totals are 150 and 300, so their average is 225 —
not the 100 the claim asserts. -/
theorem monthly_spending_example_counterexample :
    monthly_spending c9txns = 225 ∧ monthly_spending c9txns ≠ 100 := by
  have h : monthly_spending c9txns = 225 := by
    have hm : monthsOf c9txns = [2, 1] := by decide
    unfold monthly_spending
    rw [if_neg (by simp [c9txns]), hm]
    norm_num [monthTotal, c9txns]
  exact ⟨h, by rw [h]; norm_num⟩

/-- C9 (amended): `monthly_spending` groups amounts by calendar month and
averages the per-month totals — on the example transactions that value is
225 — and when the data spans at most one calendar month it equals the raw
sum of the amounts. -/
theorem monthly_spending_amended :
    monthly_spending c9txns = 225 ∧
    (∀ (ts : List Txn) (m0 : ℕ), ts ≠ [] → (∀ t ∈ ts, t.month = m0) →
      monthly_spending ts = (ts.map Txn.amount).sum) := by
  constructor
  · have hm : monthsOf c9txns = [2, 1] := by decide
    unfold monthly_spending
    rw [if_neg (by simp [c9txns]), hm]
    norm_num [monthTotal, c9txns]
  · intro ts m0 hne hall
    have hmonths : monthsOf ts = [m0] := by
      unfold monthsOf
      exact dedup_const (by simpa using hne)
        (fun x hx => by
          rcases List.mem_map.mp hx with ⟨t, ht, rfl⟩
          exact hall t ht)
    have hfilter : ts.filter (fun t => t.month == m0) = ts :=
      List.filter_eq_self.mpr (fun t ht => by simp [hall t ht])
    unfold monthly_spending
    rw [if_neg hne, hmonths]
    simp only [List.map_cons, List.map_nil, List.sum_cons, List.sum_nil,
      List.length_cons, List.length_nil]
    rw [monthTotal, hfilter]
    push_cast
    ring

theorem monthly_spending_amended_witness :
    monthly_spending [⟨70, "Food", 3⟩] = 70 := by
  have h := monthly_spending_amended.2 [⟨70, "Food", 3⟩] 3 (by simp)
    (by intro t ht; simp at ht; subst ht; rfl)
  simpa using h

/-! ### C3: section order and wholesale omission -/

/-- C3 counterexample: with an empty demographics dict but an account
value containing a newline followed by header text, the rendered output
does contain the line `## Demographic Profile` even though the demographic
source is empty — a field value can inject a header line, so omission of
an empty section does not keep its header string out of the output for
every input. -/
theorem section_header_injection_counterexample :
    "## Demographic Profile" ∈ headerLinesOf (format_meta_prompt []
      [("account_type", "x\n## Demographic Profile")] [] [] none none) := by
  decide

theorem isPrefixOf_append_of_length_le {α : Type} [BEq α] (p xs ys : List α)
    (h : p.length ≤ xs.length) :
    List.isPrefixOf p (xs ++ ys) = List.isPrefixOf p xs := by
  induction p generalizing xs with
  | nil => simp [List.isPrefixOf]
  | cons a as ih =>
    cases xs with
    | nil => simp at h
    | cons b bs =>
      simp only [List.cons_append, List.isPrefixOf, List.append_eq]
      rw [ih bs (by simpa using h)]

theorem isHashLine_label (lab v : String) (hlen : 2 ≤ lab.data.length)
    (hlab : isHashLine lab.data = false) : isHashLine (lab ++ v).data = false := by
  unfold isHashLine at *
  rw [String.data_append,
    isPrefixOf_append_of_length_le _ _ _ (by simpa using hlen)]
  exact hlab

theorem noNl_append (a b : String) (ha : '\n' ∉ a.data) (hb : '\n' ∉ b.data) :
    '\n' ∉ (a ++ b).data := by
  rw [String.data_append]
  intro h
  rcases List.mem_append.mp h with h0 | h0
  · exact ha h0
  · exact hb h0

theorem noNl_dget (r : Record) (k dflt : String) (hr : recordNoNl r)
    (hd : '\n' ∉ dflt.data) : '\n' ∉ (dget r k dflt).data := by
  unfold dget dget?
  cases hfind : r.find? (fun kv => kv.1 == k) with
  | none => simpa using hd
  | some kv =>
    simp only [Option.map_some', Option.getD_some]
    exact hr kv (List.mem_of_find?_eq_some hfind)

theorem noNl_pyJoin (sep : String) (l : List String) (hsep : '\n' ∉ sep.data)
    (h : ∀ x ∈ l, '\n' ∉ x.data) : '\n' ∉ (pyJoin sep l).data := by
  induction l with
  | nil => simp [pyJoin]
  | cons s rest ih =>
    cases rest with
    | nil => simpa [pyJoin] using h s (by simp)
    | cons t r =>
      have heq : pyJoin sep (s :: t :: r) = s ++ sep ++ pyJoin sep (t :: r) := rfl
      rw [heq]
      exact noNl_append _ _ (noNl_append _ _ (h s (by simp)) hsep)
        (ih (fun x hx => h x (by simp [hx])))

theorem noNl_opt (o : Option String) (dflt : String) (h : optNoNl o)
    (hd : '\n' ∉ dflt.data) : '\n' ∉ (o.getD dflt).data := by
  cases o with
  | none => simpa using hd
  | some v => simpa using h

theorem noNl_optList (o : Option (List String)) (h : optListNoNl o) :
    ∀ x ∈ o.getD ["Unknown"], '\n' ∉ x.data := by
  cases o with
  | none =>
    intro x hx
    simp at hx
    subst hx
    decide
  | some l => exact h

theorem demo_lines_noNl (d : Record) (hd : recordNoNl d) :
    ∀ l ∈ demo_section d, '\n' ∉ l.data := by
  intro l hl
  simp only [demo_section, List.mem_cons, List.not_mem_nil, or_false] at hl
  rcases hl with rfl | rfl | rfl | rfl | rfl | rfl | rfl
  · decide
  · exact noNl_append _ _ (by decide) (noNl_dget _ _ _ hd (by decide))
  · exact noNl_append _ _ (by decide) (noNl_dget _ _ _ hd (by decide))
  · exact noNl_append _ _ (by decide) (noNl_dget _ _ _ hd (by decide))
  · exact noNl_append _ _ (by decide) (noNl_dget _ _ _ hd (by decide))
  · exact noNl_append _ _ (by decide) (noNl_dget _ _ _ hd (by decide))
  · exact noNl_append _ _ (noNl_append _ _ (noNl_append _ _ (by decide)
      (noNl_dget _ _ _ hd (by decide))) (by decide))
      (noNl_dget _ _ _ hd (by decide))

theorem finance_lines_noNl (a c : Record) (ha : recordNoNl a) (hc : recordNoNl c) :
    ∀ l ∈ finance_section a c, '\n' ∉ l.data := by
  intro l hl
  simp only [finance_section, List.singleton_append, List.mem_cons,
    List.mem_append] at hl
  rcases hl with (rfl | hx) | hy
  · decide
  · cases hae : a.isEmpty with
    | true =>
      rw [hae] at hx
      simp at hx
    | false =>
      rw [hae] at hx
      simp only [Bool.false_eq_true, if_false, List.mem_cons,
        List.not_mem_nil, or_false] at hx
      rcases hx with rfl | rfl | rfl | rfl
      · exact noNl_append _ _ (by decide) (noNl_dget _ _ _ ha (by decide))
      · exact noNl_append _ _ (by decide) (noNl_dget _ _ _ ha (by decide))
      · exact noNl_append _ _ (by decide) (noNl_dget _ _ _ ha (by decide))
      · exact noNl_append _ _ (by decide) (noNl_dget _ _ _ ha (by decide))
  · cases hce : c.isEmpty with
    | true =>
      rw [hce] at hy
      simp at hy
    | false =>
      rw [hce] at hy
      simp only [Bool.false_eq_true, if_false, List.mem_cons,
        List.not_mem_nil, or_false] at hy
      rcases hy with rfl | rfl | rfl | rfl
      · exact noNl_append _ _ (by decide) (noNl_dget _ _ _ hc (by decide))
      · exact noNl_append _ _ (by decide) (noNl_dget _ _ _ hc (by decide))
      · exact noNl_append _ _ (noNl_append _ _ (by decide)
          (noNl_dget _ _ _ hc (by decide))) (by decide)
      · exact noNl_append _ _ (by decide) (noNl_dget _ _ _ hc (by decide))

theorem invest_lines_noNl (i : Record) (hi : recordNoNl i) :
    ∀ l ∈ invest_section i, '\n' ∉ l.data := by
  intro l hl
  simp only [invest_section, List.mem_cons, List.not_mem_nil, or_false] at hl
  rcases hl with rfl | rfl | rfl | rfl | rfl | rfl
  · decide
  · exact noNl_append _ _ (by decide) (noNl_dget _ _ _ hi (by decide))
  · exact noNl_append _ _ (by decide) (noNl_dget _ _ _ hi (by decide))
  · exact noNl_append _ _ (by decide) (noNl_dget _ _ _ hi (by decide))
  · exact noNl_append _ _ (by decide) (noNl_dget _ _ _ hi (by decide))
  · exact noNl_append _ _ (by decide) (noNl_dget _ _ _ hi (by decide))

theorem trans_lines_noNl (t : TransactionInsights) (ht : tiNoNl t) :
    ∀ l ∈ trans_section t, '\n' ∉ l.data := by
  obtain ⟨h1, h2, h3, h4⟩ := ht
  intro l hl
  simp only [trans_section, List.mem_append, List.mem_cons,
    List.not_mem_nil, or_false] at hl
  rcases hl with (rfl | rfl | rfl | rfl) | hr
  · decide
  · exact noNl_append _ _ (by decide) (noNl_opt _ _ h1 (by decide))
  · exact noNl_append _ _ (by decide)
      (noNl_pyJoin _ _ (by decide) (noNl_optList _ h2))
  · exact noNl_append _ _ (by decide) (noNl_opt _ _ h3 (by decide))
  · cases hrp : t.recurring_payments with
    | none => rw [hrp] at hr; simp at hr
    | some v =>
      rw [hrp] at hr h4
      by_cases hv : v = ""
      · simp [hv] at hr
      · simp only [hv] at hr
        simp only [if_false, List.mem_cons, List.not_mem_nil, or_false] at hr
        subst hr
        exact noNl_append _ _ (by decide) h4

theorem sent_lines_noNl (w : SentimentInsights) (hw : siNoNl w) :
    ∀ l ∈ sent_section w, '\n' ∉ l.data := by
  obtain ⟨h1, h2, h3⟩ := hw
  intro l hl
  simp only [sent_section, List.mem_cons, List.not_mem_nil, or_false] at hl
  rcases hl with rfl | rfl | rfl | rfl
  · decide
  · exact noNl_append _ _ (by decide) (noNl_opt _ _ h1 (by decide))
  · exact noNl_append _ _ (by decide)
      (noNl_pyJoin _ _ (by decide) (noNl_optList _ h2))
  · exact noNl_append _ _ (by decide) (noNl_opt _ _ h3 (by decide))

theorem label_block_filter (lines : List String)
    (h : ∀ l ∈ lines, isHashLine l.data = false) :
    (lines.map String.data).filter isHashLine = [] := by
  rw [List.filter_eq_nil_iff]
  intro x hx
  rcases List.mem_map.mp hx with ⟨l, hl, rfl⟩
  simp [h l hl]

theorem demo_filter (d : Record) :
    ((demo_section d).map String.data).filter isHashLine
      = [("## Demographic Profile" : String).data] := by
  have hassoc : "Location: " ++ dget d "city" "Unknown" ++ ", " ++
      dget d "state" "Unknown"
      = "Location: " ++ (dget d "city" "Unknown" ++ (", " ++
        dget d "state" "Unknown")) := by
    rw [String.append_assoc, String.append_assoc]
  have h0 : isHashLine ("## Demographic Profile" : String).data = true := by decide
  have h1 : isHashLine ("Age: " ++ dget d "age" "Unknown").data = false :=
    isHashLine_label _ _ (by decide) (by decide)
  have h2 : isHashLine ("Gender: " ++ dget d "gender" "Unknown").data = false :=
    isHashLine_label _ _ (by decide) (by decide)
  have h3 : isHashLine ("Occupation: " ++ dget d "occupation" "Unknown").data = false :=
    isHashLine_label _ _ (by decide) (by decide)
  have h4 : isHashLine ("Annual Income: $" ++ dget d "annual_income" "Unknown").data
      = false := isHashLine_label _ _ (by decide) (by decide)
  have h5 : isHashLine ("Education: " ++ dget d "education_level" "Unknown").data
      = false := isHashLine_label _ _ (by decide) (by decide)
  have h6 : isHashLine ("Location: " ++ dget d "city" "Unknown" ++ ", " ++
      dget d "state" "Unknown").data = false := by
    rw [hassoc]
    exact isHashLine_label _ _ (by decide) (by decide)
  simp only [demo_section, List.map_cons, List.map_nil, List.filter_cons,
    List.filter_nil, h0, h1, h2, h3, h4, h5, h6, eq_self_iff_true, if_true,
    Bool.false_eq_true, if_false]

theorem invest_filter (i : Record) :
    ((invest_section i).map String.data).filter isHashLine
      = [("## Investment Profile" : String).data] := by
  have h0 : isHashLine ("## Investment Profile" : String).data = true := by decide
  have h1 : isHashLine ("Risk Tolerance: " ++ dget i "risk_tolerance" "Unknown").data
      = false := isHashLine_label _ _ (by decide) (by decide)
  have h2 : isHashLine ("Investment Goals: " ++ dget i "investment_goals" "Unknown").data
      = false := isHashLine_label _ _ (by decide) (by decide)
  have h3 : isHashLine ("Current Investments: $" ++
      dget i "current_investments" "Unknown").data = false :=
    isHashLine_label _ _ (by decide) (by decide)
  have h4 : isHashLine ("Retirement Savings: $" ++
      dget i "retirement_savings" "Unknown").data = false :=
    isHashLine_label _ _ (by decide) (by decide)
  have h5 : isHashLine ("Investment Preferences: " ++
      dget i "investment_preferences" "Unknown").data = false :=
    isHashLine_label _ _ (by decide) (by decide)
  simp only [invest_section, List.map_cons, List.map_nil, List.filter_cons,
    List.filter_nil, h0, h1, h2, h3, h4, h5, eq_self_iff_true, if_true,
    Bool.false_eq_true, if_false]

theorem sent_filter (w : SentimentInsights) :
    ((sent_section w).map String.data).filter isHashLine
      = [("## Social Media Insights" : String).data] := by
  have h0 : isHashLine ("## Social Media Insights" : String).data = true := by decide
  have h1 : isHashLine ("Overall Sentiment: " ++
      w.overall_sentiment.getD "Unknown").data = false :=
    isHashLine_label _ _ (by decide) (by decide)
  have h2 : isHashLine ("Financial Interests: " ++
      pyJoin ", " (w.financial_interests.getD ["Unknown"])).data = false :=
    isHashLine_label _ _ (by decide) (by decide)
  have h3 : isHashLine ("Recent Concerns: " ++
      w.financial_concerns.getD "None").data = false :=
    isHashLine_label _ _ (by decide) (by decide)
  simp only [sent_section, List.map_cons, List.map_nil, List.filter_cons,
    List.filter_nil, h0, h1, h2, h3, eq_self_iff_true, if_true,
    Bool.false_eq_true, if_false]

theorem finance_filter (a c : Record) :
    ((finance_section a c).map String.data).filter isHashLine
      = [("## Financial Profile" : String).data] := by
  have h0 : isHashLine ("## Financial Profile" : String).data = true := by decide
  have hA : ∀ l ∈ (if a.isEmpty then [] else
      ["Account Type: " ++ dget a "account_type" "Unknown",
       "Account Balance: $" ++ dget a "account_balance" "Unknown",
       "Savings Balance: $" ++ dget a "savings_balance" "Unknown",
       "Account Opened: " ++ dget a "account_opening_date" "Unknown"]),
      isHashLine l.data = false := by
    intro l hl
    cases hae : a.isEmpty with
    | true =>
      rw [hae] at hl
      simp at hl
    | false =>
      rw [hae] at hl
      simp only [Bool.false_eq_true, if_false, List.mem_cons,
        List.not_mem_nil, or_false] at hl
      rcases hl with rfl | rfl | rfl | rfl
      · exact isHashLine_label _ _ (by decide) (by decide)
      · exact isHashLine_label _ _ (by decide) (by decide)
      · exact isHashLine_label _ _ (by decide) (by decide)
      · exact isHashLine_label _ _ (by decide) (by decide)
  have hB : ∀ l ∈ (if c.isEmpty then [] else
      ["Credit Score: " ++ dget c "credit_score" "Unknown",
       "Outstanding Debt: $" ++ dget c "outstanding_debt" "Unknown",
       "Credit Utilization: " ++ dget c "credit_utilization" "Unknown" ++ "%",
       "Payment History: " ++ dget c "payment_history" "Unknown"]),
      isHashLine l.data = false := by
    intro l hl
    cases hce : c.isEmpty with
    | true =>
      rw [hce] at hl
      simp at hl
    | false =>
      rw [hce] at hl
      simp only [Bool.false_eq_true, if_false, List.mem_cons,
        List.not_mem_nil, or_false] at hl
      rcases hl with rfl | rfl | rfl | rfl
      · exact isHashLine_label _ _ (by decide) (by decide)
      · exact isHashLine_label _ _ (by decide) (by decide)
      · rw [String.append_assoc]
        exact isHashLine_label _ _ (by decide) (by decide)
      · exact isHashLine_label _ _ (by decide) (by decide)
  simp only [finance_section]
  rw [List.map_append, List.map_append, List.filter_append, List.filter_append,
    label_block_filter _ hA, label_block_filter _ hB]
  simp only [List.map_cons, List.map_nil, List.filter_cons, List.filter_nil,
    h0, eq_self_iff_true, if_true, List.append_nil]

theorem trans_filter (t : TransactionInsights) :
    ((trans_section t).map String.data).filter isHashLine
      = [("## Spending Patterns" : String).data] := by
  have h0 : isHashLine ("## Spending Patterns" : String).data = true := by decide
  have h1 : isHashLine ("Monthly Spending: $" ++
      t.monthly_spending.getD "Unknown").data = false :=
    isHashLine_label _ _ (by decide) (by decide)
  have h2 : isHashLine ("Top Spending Categories: " ++
      pyJoin ", " (t.top_categories.getD ["Unknown"])).data = false :=
    isHashLine_label _ _ (by decide) (by decide)
  have h3 : isHashLine ("Recent Large Transactions: " ++
      t.large_transactions.getD "None").data = false :=
    isHashLine_label _ _ (by decide) (by decide)
  have hR : ∀ l ∈ (match t.recurring_payments with
      | some v => if v = "" then [] else ["Recurring Payments: " ++ v]
      | none => ([] : List String)), isHashLine l.data = false := by
    intro l hl
    cases hrp : t.recurring_payments with
    | none =>
      rw [hrp] at hl
      simp at hl
    | some v =>
      rw [hrp] at hl
      by_cases hv : v = ""
      · simp [hv] at hl
      · simp only [hv, if_false, List.mem_cons, List.not_mem_nil, or_false] at hl
        subst hl
        exact isHashLine_label _ _ (by decide) (by decide)
  simp only [trans_section]
  rw [List.map_append, List.filter_append, label_block_filter _ hR]
  simp only [List.map_cons, List.map_nil, List.filter_cons, List.filter_nil,
    h0, h1, h2, h3, eq_self_iff_true, if_true, Bool.false_eq_true, if_false,
    List.append_nil]

theorem String_mk_data (s : String) : String.mk s.data = s := rfl

theorem demo_section_hash (d : Record) (hd : recordNoNl d) :
    (splitOnChar '\n' (pyJoin "\n" (demo_section d)).data).filter isHashLine
      = [("## Demographic Profile" : String).data] := by
  rw [split_join1_noNl _ (by simp [demo_section]) (demo_lines_noNl d hd),
    demo_filter]

theorem finance_section_hash (a c : Record) (ha : recordNoNl a)
    (hc : recordNoNl c) :
    (splitOnChar '\n' (pyJoin "\n" (finance_section a c)).data).filter isHashLine
      = [("## Financial Profile" : String).data] := by
  rw [split_join1_noNl _ (by simp [finance_section])
    (finance_lines_noNl a c ha hc), finance_filter]

theorem invest_section_hash (i : Record) (hi : recordNoNl i) :
    (splitOnChar '\n' (pyJoin "\n" (invest_section i)).data).filter isHashLine
      = [("## Investment Profile" : String).data] := by
  rw [split_join1_noNl _ (by simp [invest_section]) (invest_lines_noNl i hi),
    invest_filter]

theorem trans_section_hash (t : TransactionInsights) (ht : tiNoNl t) :
    (splitOnChar '\n' (pyJoin "\n" (trans_section t)).data).filter isHashLine
      = [("## Spending Patterns" : String).data] := by
  rw [split_join1_noNl _ (by simp [trans_section]) (trans_lines_noNl t ht),
    trans_filter]

theorem sent_section_hash (w : SentimentInsights) (hw : siNoNl w) :
    (splitOnChar '\n' (pyJoin "\n" (sent_section w)).data).filter isHashLine
      = [("## Social Media Insights" : String).data] := by
  rw [split_join1_noNl _ (by simp [sent_section]) (sent_lines_noNl w hw),
    sent_filter]

theorem headerLinesOf_join (secs : List String) (hdrs : List String)
    (hne : ∀ s ∈ secs, s.data ≠ [])
    (hcorr : secs.map (fun s => (splitOnChar '\n' s.data).filter isHashLine)
      = hdrs.map (fun h => [h.data])) :
    headerLinesOf (if pyJoin "\n\n" secs = "" then
        "New financial advisor user with limited context information available."
      else pyJoin "\n\n" secs) = hdrs := by
  cases secs with
  | nil =>
    have h0 : hdrs = [] := by
      cases hdrs with
      | nil => rfl
      | cons x xs => simp at hcorr
    subst h0
    have hjnil : pyJoin "\n\n" ([] : List String) = "" := rfl
    rw [hjnil, if_pos rfl]
    decide
  | cons s rest =>
    have hne2 : pyJoin "\n\n" (s :: rest) ≠ "" :=
      pyJoin2_ne_empty _ (by simp) hne
    rw [if_neg hne2]
    unfold headerLinesOf
    rw [filter_hash_join2 _ (by simp), hcorr, flatten_map_singleton,
      List.map_map]
    rw [show (String.mk ∘ String.data) = id from funext fun h => rfl,
      List.map_id]

/-- C3 (amended): for renderer inputs whose field values contain no newline
character (a value with an embedded newline can forge a header line), the
`##` headers present in the output are exactly those of the sections with
non-empty sources, in the fixed order Demographic, Financial
(account+credit merged), Investment, Spending Patterns, Social Media
Insights — an empty source's header does not appear at all. -/
theorem section_order_and_omission (d a c i : Record)
    (ti : Option TransactionInsights) (si : Option SentimentInsights)
    (hd : recordNoNl d) (ha : recordNoNl a) (hc : recordNoNl c)
    (hi : recordNoNl i) (hti : otiNoNl ti) (hsi : osiNoNl si) :
    headerLinesOf (format_meta_prompt d a c i ti si)
      = (if d.isEmpty then [] else ["## Demographic Profile"])
        ++ (if a.isEmpty && c.isEmpty then [] else ["## Financial Profile"])
        ++ (if i.isEmpty then [] else ["## Investment Profile"])
        ++ (match ti with
            | some _ => ["## Spending Patterns"]
            | none => ([] : List String))
        ++ (match si with
            | some _ => ["## Social Media Insights"]
            | none => ([] : List String)) := by
  show headerLinesOf (if pyJoin "\n\n" (sectionsOf d a c i ti si) = "" then
      "New financial advisor user with limited context information available."
    else pyJoin "\n\n" (sectionsOf d a c i ti si)) = _
  apply headerLinesOf_join
  · exact sectionsOf_data_ne_nil d a c i ti si
  · simp only [sectionsOf, List.map_append]
    congr 1
    congr 1
    congr 1
    congr 1
    · cases hde : d.isEmpty with
      | true => simp
      | false =>
        simp only [Bool.false_eq_true, if_false, List.map_cons, List.map_nil]
        rw [demo_section_hash d hd]
    · cases hfin : a.isEmpty && c.isEmpty with
      | true => simp
      | false =>
        simp only [Bool.false_eq_true, if_false, List.map_cons, List.map_nil]
        rw [finance_section_hash a c ha hc]
    · cases hie : i.isEmpty with
      | true => simp
      | false =>
        simp only [Bool.false_eq_true, if_false, List.map_cons, List.map_nil]
        rw [invest_section_hash i hi]
    · cases ti with
      | none => simp
      | some t =>
        simp only [List.map_cons, List.map_nil]
        rw [trans_section_hash t hti]
    · cases si with
      | none => simp
      | some w =>
        simp only [List.map_cons, List.map_nil]
        rw [sent_section_hash w hsi]

theorem section_order_and_omission_witness :
    headerLinesOf (format_meta_prompt [("age", "34")] [] [] [] none none)
      = ["## Demographic Profile"] := by
  have h := section_order_and_omission [("age", "34")] [] [] [] none none
    (by intro kv hkv; simp at hkv; subst hkv; decide)
    (by intro kv hkv; simp at hkv)
    (by intro kv hkv; simp at hkv)
    (by intro kv hkv; simp at hkv)
    trivial trivial
  simpa using h
